import Mathlib

/-!
Shallow embedding of the invoice-processing workflow core
(src/state.py, src/nodes.py, src/graph.py, src/tools/validators.py,
src/tools/supabase_tool.py).

Modelling conventions:
* Python `Decimal` values are embedded as `ℚ` (exact-decimal arithmetic);
  `Decimal("0.10")` is `(1/10 : ℚ)`.
* Python `datetime.date` is a `Date` record with chronological order.
* A pydantic model field that may be absent/null is an `Option`.
* `Dict[str, Any]` payloads read only through `.get(key)` with string-ish
  values are association lists `List (String × Option String)`; an absent
  key and a null value both read back as `none`, exactly as `.get` does.
* External collaborators (Gemini OCR call, asyncpg inserts, the SQL agent)
  are parameters: each call site receives the collaborator's outcome as an
  `Except String _` value (or a fault-injection parameter), so stage
  functions stay pure while keeping the source's control flow.
* Wall-clock timestamps in log entries are elided (they are
  `datetime.now()` noise carried in otherwise-structural records).
-/

namespace ChatBot

/-- Calendar date, standing in for Python `datetime.date`. -/
structure Date where
  year : Nat
  month : Nat
  day : Nat
deriving DecidableEq, Repr

/-- Chronological strict order on dates (Python `date` comparison). -/
def Date.before (a b : Date) : Bool :=
  decide (a.year < b.year ∨ (a.year = b.year ∧
    (a.month < b.month ∨ (a.month = b.month ∧ a.day < b.day))))

/-- pydantic date coercion from a `YYYY-MM-DD` string (src uses ISO dates). -/
def parseDate (s : String) : Option Date :=
  match s.splitOn "-" with
  | [y, m, d] =>
    match y.toNat?, m.toNat?, d.toNat? with
    | some yn, some mn, some dn =>
      if 1 ≤ mn ∧ mn ≤ 12 ∧ 1 ≤ dn ∧ dn ≤ 31 then some ⟨yn, mn, dn⟩ else none
    | _, _, _ => none
  | _ => none

/-- Embeds `SellerInfo` (src/state.py). -/
structure SellerInfo where
  name : String := ""
  address : String := ""
  contact_information : String := ""
  tax_id : String := ""
  email : String := ""
  phone : String := ""
deriving DecidableEq, Repr

/-- Embeds `BuyerInfo` (src/state.py). -/
structure BuyerInfo where
  name : String := ""
  address : String := ""
  contact_information : String := ""
  tax_id : String := ""
  email : String := ""
  phone : String := ""
deriving DecidableEq, Repr

/-- Embeds `InvoiceItem` (src/state.py); `Decimal` fields are `ℚ`. -/
structure InvoiceItem where
  item_description : String
  item_code : Option String := none
  quantity : ℚ
  unit_price : ℚ
  discount_percentage : Option ℚ := some 0
  discount_amount : Option ℚ := some 0
  tax_rate : Option ℚ := some 0
  tax_amount : Option ℚ := some 0
  line_total : ℚ
deriving DecidableEq, Repr

/-- Embeds `InvoiceSummary` (src/state.py). -/
structure InvoiceSummary where
  subtotal : ℚ
  total_discount : ℚ := 0
  total_tax : ℚ := 0
  shipping_cost : ℚ := 0
  total_amount_due : ℚ
deriving DecidableEq, Repr

/-- Embeds `ProcessedInvoice` (src/state.py). `seller`, `buyer`, `items`,
`summary` and `invoice_number` are required pydantic fields (no default). -/
structure ProcessedInvoice where
  invoice_number : String
  invoice_date : Option Date := none
  due_date : Option Date := none
  invoice_type : String := "STANDARD"
  seller : SellerInfo
  buyer : BuyerInfo
  items : List InvoiceItem
  summary : InvoiceSummary
  payment_terms : Option String := none
  payment_method : Option String := none
  po_number : Option String := none
  notes : Option String := none
  ocr_confidence : ℚ := 0
deriving DecidableEq, Repr

/-- Embeds `ValidationResult` (src/state.py). -/
structure ValidationResult where
  is_valid : Bool
  errors : List String := []
  warnings : List String := []
  suggestions : List String := []
deriving DecidableEq, Repr

/-- Embeds `QueryResult` (src/state.py); `result : Any` is the agent's prose
answer, hence `Option String` (`None` on failure). -/
structure QueryResult where
  query : String
  result : Option String
  execution_time : ℚ
  success : Bool
  error_message : Option String := none
deriving DecidableEq, Repr

/-- One entry of `processing_logs`; timestamps and per-stage detail
payloads are elided, the `step`/`status`/`error` keys are kept. -/
structure LogEntry where
  step : String
  status : String
  error : Option String := none
deriving DecidableEq, Repr

/-! ## Validation engine (src/tools/validators.py) -/

/-- Embeds `_validate_invoice_number`: one or more characters from the class
A-Z, 0-9, hyphen, slash (anchored), against the uppercased string. -/
def validInvoiceNumber (s : String) : Bool :=
  let u := s.toUpper
  u ≠ "" && u.toList.all (fun c => c.isUpper || c.isDigit || c == '-' || c == '/')

def emailLocalChar (c : Char) : Bool :=
  c.isAlpha || c.isDigit || c == '.' || c == '_' || c == '%' || c == '+' || c == '-'

def emailDomainChar (c : Char) : Bool :=
  c.isAlpha || c.isDigit || c == '.' || c == '-'

/-- Embeds `_validate_email`: regex
`^[a-zA-Z0-9._%+-]+@[a-zA-Z0-9.-]+\.[a-zA-Z]{2,}$`, rendered as the
equivalent structural check (exactly one `@`; nonempty local part over its
character class; domain over its class, ending in a dot followed by an
alphabetic top-level label of length at least 2, with at least one
character before that dot). -/
def validEmail (s : String) : Bool :=
  match s.splitOn "@" with
  | [loc, dom] =>
    loc ≠ "" && loc.toList.all emailLocalChar &&
    dom.toList.all emailDomainChar &&
    (match (dom.splitOn ".").getLast? with
     | some tld =>
       (dom.splitOn ".").length ≥ 2 && tld.length ≥ 2 &&
       tld.toList.all Char.isAlpha && dom.length ≥ tld.length + 2
     | none => false)
  | _ => false

/-- One line's contribution to `calculated_subtotal` in `_validate_totals`:
`quantity * unit_price`, discounted only when `item.discount_percentage`
is truthy (present and nonzero). -/
def lineTotalCalc (it : InvoiceItem) : ℚ :=
  let base := it.quantity * it.unit_price
  match it.discount_percentage with
  | some d => if d ≠ 0 then base * ((100 - d) / 100) else base
  | none => base

/-- One line's contribution to `calculated_tax` in `_validate_totals`:
`line_total * tax_rate / 100` when `item.tax_rate` is truthy, else 0. -/
def lineTaxCalc (it : InvoiceItem) : ℚ :=
  match it.tax_rate with
  | some t => if t ≠ 0 then lineTotalCalc it * t / 100 else 0
  | none => 0

/-- Embeds `calculated_subtotal` after the loop in `_validate_totals`. -/
def calcSubtotal (inv : ProcessedInvoice) : ℚ :=
  (inv.items.map lineTotalCalc).sum

/-- Embeds `calculated_tax` after the loop in `_validate_totals`. -/
def calcTax (inv : ProcessedInvoice) : ℚ :=
  (inv.items.map lineTaxCalc).sum

/-- The comparison at the end of `_validate_totals`:
both absolute differences strictly below `Decimal("0.10")`. -/
def totalsWithinTolerance (inv : ProcessedInvoice) : Bool :=
  decide (|calcSubtotal inv - inv.summary.subtotal| < 1/10 ∧
          |calcTax inv - inv.summary.total_tax| < 1/10)

/-- Embeds `_validate_totals`, with its `try/except` made explicit: `fault` is
the abstract possibility that the exact-decimal library raises inside the
`try` block (e.g. a NaN operand); the `except Exception: return False`
branch maps any such fault to `false`. -/
def validateTotals (inv : ProcessedInvoice) (fault : Option String) : Bool :=
  match fault with
  | some _ => false
  | none => totalsWithinTolerance inv

/-- The per-item loop of check 7 in `InvoiceValidator.validate`
(1-based indices in the messages, as `enumerate` + `i+1` produces). -/
def itemChecks : Nat → List InvoiceItem → List String
  | _, [] => []
  | i, it :: rest =>
    ((if it.quantity ≤ 0 then ["Item " ++ toString (i + 1) ++ ": Quantity must be positive"] else []) ++
     (if it.unit_price < 0 then ["Item " ++ toString (i + 1) ++ ": Unit price cannot be negative"] else [])) ++
    itemChecks (i + 1) rest

/-- Embeds `InvoiceValidator.validate` (src/tools/validators.py). Notes:
* a pydantic `BaseModel` is always truthy, so `if invoice_data.summary:`
  and the `invoice_data.seller`/`buyer` guards reduce to their field tests;
* string truthiness (`if not invoice_data.invoice_number`) is the
  empty-string test; `Optional` truthiness is `none`-or-empty;
* `fault` threads the `_validate_totals` internal-exception possibility. -/
def validate (inv : ProcessedInvoice) (fault : Option String) : ValidationResult :=
  let e1 := if inv.invoice_number = "" then ["Invoice number is required"] else []
  let w1 := if inv.invoice_date = none then ["Invoice date is missing"] else []
  let w2 := if inv.invoice_number ≠ "" ∧ ¬ validInvoiceNumber inv.invoice_number then
      ["Invoice number format may be incorrect"] else []
  let e2 := match inv.invoice_date, inv.due_date with
    | some d1, some d2 =>
      if Date.before d2 d1 then ["Due date cannot be before invoice date"] else []
    | _, _ => []
  let w3 := if validateTotals inv fault then [] else ["Invoice totals may not add up correctly"]
  let w4 := if inv.seller.name = "" then ["Seller information is incomplete"] else []
  let w5 := if inv.buyer.name = "" then ["Buyer information is incomplete"] else []
  let w6 := if inv.seller.email ≠ "" ∧ ¬ validEmail inv.seller.email then
      ["Seller email format is invalid"] else []
  let w7 := if inv.buyer.email ≠ "" ∧ ¬ validEmail inv.buyer.email then
      ["Buyer email format is invalid"] else []
  let e3 := if inv.items = [] then ["Invoice must have at least one line item"]
      else itemChecks 0 inv.items
  let s1 := if inv.ocr_confidence < 80 then
      ["OCR confidence is low. Manual review recommended."] else []
  let s2 := if inv.payment_terms = none ∨ inv.payment_terms = some "" then
      ["Consider adding payment terms"] else []
  let errs := e1 ++ e2 ++ e3
  { is_valid := errs.isEmpty
    errors := errs
    warnings := w1 ++ w2 ++ w3 ++ w4 ++ w5 ++ w6 ++ w7
    suggestions := s1 ++ s2 }

/-! ## OCR extraction payloads (src/tools/ocr_tool.py, src/nodes.py) -/

/-- String-valued JSON-object payload read only via `.get(key)`:
an absent key and an explicit null both read back as `none`. -/
abbrev StrDict := List (String × Option String)

/-- Embeds `.get(key)` on a `StrDict`. -/
def dget (d : StrDict) (k : String) : Option String :=
  match d.lookup k with
  | some v => v
  | none => none

/-- The shape of the extraction's `items` entry. A well-formed extraction
(per the OCR prompt) carries a JSON array; a JSON object is also possible
since the LLM output is only `json.loads`-checked. -/
inductive ItemsVal where
  | asList (n : Nat)
  | asDict (d : StrDict)
deriving DecidableEq, Repr

/-- The parsed JSON returned by `GeminiOCRTool.extract_invoice_data`,
restricted to the keys `perform_ocr` reads. Absent keys fall back to the
defaults `perform_ocr` supplies (`{}` / `[]`). -/
structure OCRData where
  invoice_info : StrDict := []
  items : ItemsVal := .asList 0
  summary : StrDict := []
  confidence_scores : List (String × ℚ) := []
deriving DecidableEq, Repr

/-- Embeds `OCRResult` (src/state.py): note `table_info : Dict[str, Any]`. -/
structure OCRResult where
  invoice_info : StrDict
  table_info : StrDict
  total_info : StrDict
  confidence_scores : List (String × ℚ)
  raw_text : String
deriving DecidableEq, Repr

/-- The `OCRResult(...)` construction inside `perform_ocr`.
pydantic validates `table_info` against `Dict[str, Any]`: the extraction's
`items` list (the well-formed shape) is rejected with a validation error;
only a JSON-object `items` passes. `raw_text = str(ocr_data)` is elided
to `""` (it is never read downstream). -/
def mkOCRResult (d : OCRData) : Except String OCRResult :=
  match d.items with
  | .asList _ =>
    .error "1 validation error for OCRResult: table_info value is not a valid dict"
  | .asDict td =>
    .ok { invoice_info := d.invoice_info, table_info := td,
          total_info := d.summary, confidence_scores := d.confidence_scores,
          raw_text := "" }

/-! ## Graph state and merge policy (src/state.py `GraphState`) -/

/-- Embeds `GraphState` as langgraph holds it: `Option` models a key that may be
absent from the state dict (or explicitly `None`). -/
structure GraphState where
  image_path : String
  image_url : Option String := none
  ocr_result : Option OCRResult := none
  ocr_status : Option String := none
  processed_invoice : Option ProcessedInvoice := none
  validation_result : Option ValidationResult := none
  invoice_id : Option String := none
  db_status : Option String := none
  user_query : Option String := none
  query_results : List QueryResult := []
  errors : List String := []
  processing_logs : List LogEntry := []
deriving DecidableEq, Repr

/-- A node's partial update: only the keys present in the returned dict.
List-typed fields default to `[]` (nothing appended). -/
structure Update where
  ocr_result : Option OCRResult := none
  ocr_status : Option String := none
  processed_invoice : Option ProcessedInvoice := none
  validation_result : Option ValidationResult := none
  invoice_id : Option String := none
  db_status : Option String := none
  query_results : List QueryResult := []
  errors : List String := []
  processing_logs : List LogEntry := []
deriving DecidableEq, Repr

/-- The engine's merge of a partial update into the running state:
last-write-wins for scalar keys that the update carries, and the
`Annotated[..., operator.add]` reducer (`existing ++ new`) for
`query_results`, `errors`, `processing_logs`. -/
def applyUpdate (s : GraphState) (u : Update) : GraphState :=
  { s with
    ocr_result := match u.ocr_result with | some v => some v | none => s.ocr_result
    ocr_status := match u.ocr_status with | some v => some v | none => s.ocr_status
    processed_invoice := match u.processed_invoice with | some v => some v | none => s.processed_invoice
    validation_result := match u.validation_result with | some v => some v | none => s.validation_result
    invoice_id := match u.invoice_id with | some v => some v | none => s.invoice_id
    db_status := match u.db_status with | some v => some v | none => s.db_status
    query_results := s.query_results ++ u.query_results
    errors := s.errors ++ u.errors
    processing_logs := s.processing_logs ++ u.processing_logs }

/-! ## Stage functions (src/nodes.py) -/

/-- Embeds `perform_ocr`: the `try` block covers both the awaited service call
(`svc` is its outcome) and the `OCRResult(...)` construction; any raised
exception lands in the `except` branch. -/
def perform_ocr (st : GraphState) (svc : Except String OCRData) : Update :=
  match svc with
  | .error e =>
    { ocr_status := some "failed"
      errors := ["OCR Error: " ++ e]
      processing_logs := [{ step := "OCR", status := "failed", error := some e }] }
  | .ok d =>
    match mkOCRResult d with
    | .error e =>
      { ocr_status := some "failed"
        errors := ["OCR Error: " ++ e]
        processing_logs := [{ step := "OCR", status := "failed", error := some e }] }
    | .ok r =>
      { ocr_result := some r
        ocr_status := some "completed"
        processing_logs := [{ step := "OCR", status := "success" }] }

/-- The `ProcessedInvoice(...)` call in `process_invoice_data`, with
pydantic's required-field validation made explicit: each parameter is the
keyword argument supplied (or `none` when the call site omits it /
passes `None`). `invoice_number`, `seller`, `buyer`, `items`, `summary`
have no default, so a missing value is a validation error; date strings
must coerce to dates. -/
def buildProcessedInvoice (num idate ddate : Option String)
    (seller : Option SellerInfo) (buyer : Option BuyerInfo)
    (items : Option (List InvoiceItem)) (summary : Option InvoiceSummary) :
    Except String ProcessedInvoice :=
  match seller, buyer, items, summary, num with
  | some s, some b, some its, some sm, some n =>
    match idate, ddate with
    | some i, some d =>
      match parseDate i, parseDate d with
      | some di, some dd =>
        .ok { invoice_number := n, invoice_date := some di, due_date := some dd,
              seller := s, buyer := b, items := its, summary := sm }
      | _, _ => .error "invalid date format"
    | some i, none =>
      match parseDate i with
      | some di =>
        .ok { invoice_number := n, invoice_date := some di,
              seller := s, buyer := b, items := its, summary := sm }
      | none => .error "invalid date format"
    | none, some d =>
      match parseDate d with
      | some dd =>
        .ok { invoice_number := n, due_date := some dd,
              seller := s, buyer := b, items := its, summary := sm }
      | none => .error "invalid date format"
    | none, none =>
      .ok { invoice_number := n, seller := s, buyer := b, items := its, summary := sm }
  | _, _, _, _, _ => .error "field required"

/-- Embeds `process_invoice_data`: reads `state["ocr_result"]` (KeyError if
absent — its Python rendering is the quoted key) and builds a
`ProcessedInvoice` from `invoice_number` / `invoice_date` / `due_date`
only; the call site supplies no `seller`, `buyer`, `items` or `summary`. -/
def process_invoice_data (st : GraphState) : Update :=
  match st.ocr_result with
  | none =>
    { errors := ["Processing Error: \x27ocr_result\x27"]
      processing_logs := [{ step := "PROCESS_DATA", status := "failed",
                            error := some "\x27ocr_result\x27" }] }
  | some r =>
    match buildProcessedInvoice (dget r.invoice_info "invoice_number")
        (dget r.invoice_info "invoice_date") (dget r.invoice_info "due_date")
        none none none none with
    | .ok p =>
      { processed_invoice := some p
        processing_logs := [{ step := "PROCESS_DATA", status := "success" }] }
    | .error e =>
      { errors := ["Processing Error: " ++ e]
        processing_logs := [{ step := "PROCESS_DATA", status := "failed",
                              error := some e }] }

/-- Embeds `validate_invoice`: reads `state["processed_invoice"]` — a KeyError
when the mapping stage never set it — and otherwise delegates to the
validator (total in this embedding; `fault` threads the
`_validate_totals` internal-exception possibility). -/
def validate_invoice (st : GraphState) (fault : Option String) : Update :=
  match st.processed_invoice with
  | none => { errors := ["Validation Error: \x27processed_invoice\x27"] }
  | some inv =>
    let vr := validate inv fault
    { validation_result := some vr
      processing_logs := [{ step := "VALIDATE",
                            status := if vr.is_valid then "success" else "warning" }] }

/-- Embeds `save_to_database`: `dbo` is the outcome of the awaited
`supabase_tool.save_invoice(...)` call inside the `try` block. -/
def save_to_database (st : GraphState) (dbo : Except String String) : Update :=
  match dbo with
  | .ok iid =>
    { invoice_id := some iid
      db_status := some "saved"
      processing_logs := [{ step := "SAVE_DATABASE", status := "success" }] }
  | .error e =>
    { db_status := some "failed"
      errors := ["Database Error: " ++ e] }

/-- Embeds `process_user_query`: early-returns `{}` on a falsy `user_query`;
otherwise wraps the SQL agent's outcome (`ago`) in exactly one
`QueryResult`, with the error shape of the `except` branch. -/
def process_user_query (st : GraphState) (ago : Except String String) : Update :=
  match st.user_query with
  | none => {}
  | some q =>
    if q = "" then {}
    else
      match ago with
      | .ok ans =>
        { query_results := [{ query := q, result := some ans,
                              execution_time := 0, success := true }] }
      | .error e =>
        { query_results := [{ query := q, result := none, execution_time := 0,
                              success := false, error_message := some e }]
          errors := ["Query Error: " ++ e] }

/-! ## Decision predicates (src/nodes.py) -/

/-- Embeds `check_ocr_status`. -/
def check_ocr_status (st : GraphState) : String :=
  if st.ocr_status = some "completed" then "ocr_success" else "ocr_failed"

/-- Embeds `check_validation_status`: a pydantic model is always truthy, so the
`if validation_result and ...` guards reduce to presence tests. -/
def check_validation_status (st : GraphState) : String :=
  match st.validation_result with
  | some vr =>
    if vr.is_valid then "validation_passed"
    else if vr.errors = [] then "validation_warning"
    else "validation_failed"
  | none => "validation_failed"

/-- Embeds `check_query_needed`: Python truthiness of `state.get("user_query")`. -/
def check_query_needed (st : GraphState) : String :=
  match st.user_query with
  | some q => if q = "" then "skip_query" else "process_query"
  | none => "skip_query"

/-! ## Persistence (src/tools/supabase_tool.py `save_invoice`)

`save_invoice` runs eight sub-inserts in order inside
`async with conn.transaction():` — the context manager commits on normal
exit and rolls the whole transaction back when an exception escapes the
block, so the visible database either gains all issued rows or none.
Rows are abstracted to (table, invoice_id) pairs; a fault is injected as
the index of the sub-insert whose `conn.execute` raises, together with its
message (a sub-insert whose guard is false, or whose item loop is empty,
issues no statement and therefore cannot fault). -/

/-- One visible database row, abstracted to its table and invoice link. -/
structure InvoiceRow where
  table : String
  invoice_id : String
deriving DecidableEq, Repr

/-- The visible database: the rows committed so far. -/
abbrev DB := List InvoiceRow

/-- The presence flags and item count that decide which of the eight
sub-inserts issue statements for a given `invoice_data` payload. -/
structure SaveData where
  hasSeller : Bool
  hasBuyer : Bool
  hasPayment : Bool
  numItems : Nat
deriving DecidableEq, Repr

/-- The rows each of the eight sub-inserts contributes, in source order:
invoices, sellers, buyers, invoice_items (one row per item),
invoice_summary, payment_information, invoice_metadata,
processing_history. -/
def stepRows (d : SaveData) (iid : String) : List (List InvoiceRow) :=
  [[{ table := "invoices", invoice_id := iid }],
   if d.hasSeller then [{ table := "sellers", invoice_id := iid }] else [],
   if d.hasBuyer then [{ table := "buyers", invoice_id := iid }] else [],
   List.replicate d.numItems { table := "invoice_items", invoice_id := iid },
   [{ table := "invoice_summary", invoice_id := iid }],
   if d.hasPayment then [{ table := "payment_information", invoice_id := iid }] else [],
   [{ table := "invoice_metadata", invoice_id := iid }],
   [{ table := "processing_history", invoice_id := iid }]]

/-- Execute the sub-inserts from index `k` on: a step whose row list is
empty issues no statement; the faulting step raises its message. -/
def execSteps (fault : Option (Nat × String)) : Nat → List (List InvoiceRow) →
    Except String (List InvoiceRow)
  | _, [] => .ok []
  | k, rs :: rest =>
    match fault with
    | some (j, m) =>
      if j = k ∧ rs ≠ [] then .error m
      else (execSteps fault (k + 1) rest).map (rs ++ ·)
    | none => (execSteps fault (k + 1) rest).map (rs ++ ·)

/-- Embeds `save_invoice`: returns the call's outcome together with the database
visible afterwards. On success the transaction commits all issued rows
and the fresh `invoice_id` is returned; on a fault the inner `except`
re-raises `"Failed to save invoice: <e>"` out of the transaction block,
which rolls back, leaving the database unchanged. -/
def save_invoice (db : DB) (d : SaveData) (iid : String)
    (fault : Option (Nat × String)) : Except String String × DB :=
  match execSteps fault 0 (stepRows d iid) with
  | .ok rows => (.ok iid, db ++ rows)
  | .error m => (.error ("Failed to save invoice: " ++ m), db)

/-! ## Workflow engine (src/graph.py) -/

/-- The outcomes of the external collaborators consulted during one run:
the OCR service call, the `_validate_totals` internal-fault possibility,
the `save_invoice` call, and the SQL agent call. -/
structure Externals where
  svc : Except String OCRData
  totalsFault : Option String := none
  dbo : Except String String := .ok ""
  ago : Except String String := .ok ""

/-- The initial state `process_invoice` passes to `ainvoke` (src/graph.py):
only these keys are present; the other keys are absent. -/
def initState (ip : String) (uq : Option String) : GraphState :=
  { image_path := ip, user_query := uq,
    ocr_status := some "pending", db_status := some "pending" }

/-- One `ainvoke` traversal of the compiled graph, following the
conditional-edge maps of `build_graph`, returning the final state and the
ordered list of (node name, partial update) executions. -/
def runTrace (ip : String) (uq : Option String) (ext : Externals) :
    GraphState × List (String × Update) :=
  let s0 := initState ip uq
  let u1 := perform_ocr s0 ext.svc
  let s1 := applyUpdate s0 u1
  let t1 := [("perform_ocr", u1)]
  if check_ocr_status s1 = "ocr_success" then
    let u2 := process_invoice_data s1
    let s2 := applyUpdate s1 u2
    let u3 := validate_invoice s2 ext.totalsFault
    let s3 := applyUpdate s2 u3
    let t3 := t1 ++ [("process_invoice_data", u2), ("validate_invoice", u3)]
    let v := check_validation_status s3
    if v = "validation_passed" ∨ v = "validation_warning" then
      let u4 := save_to_database s3 ext.dbo
      let s4 := applyUpdate s3 u4
      let t4 := t3 ++ [("save_to_database", u4)]
      if check_query_needed s4 = "process_query" then
        let u5 := process_user_query s4 ext.ago
        (applyUpdate s4 u5, t4 ++ [("process_user_query", u5)])
      else (s4, t4)
    else (s3, t3)
  else (s1, t1)

/-- Embeds `InvoiceProcessingWorkflow.process_invoice`: the final state of one
run. -/
def runWorkflow (ip : String) (uq : Option String) (ext : Externals) :
    GraphState :=
  (runTrace ip uq ext).1

/-- The six scalar (write-once) state fields. -/
inductive ScalarField where
  | ocrStatusF | ocrResultF | processedInvoiceF | validationResultF
  | invoiceIdF | dbStatusF
deriving DecidableEq, Repr

/-- Whether a partial update carries (writes) the given scalar field. -/
def Update.setsField (u : Update) : ScalarField → Bool
  | .ocrStatusF => u.ocr_status.isSome
  | .ocrResultF => u.ocr_result.isSome
  | .processedInvoiceF => u.processed_invoice.isSome
  | .validationResultF => u.validation_result.isSome
  | .invoiceIdF => u.invoice_id.isSome
  | .dbStatusF => u.db_status.isSome

/-- A concrete invoice whose recomputed subtotal differs from the
summary-supplied subtotal by exactly 0.10 currency units. -/
def boundaryInvoice : ProcessedInvoice :=
  { invoice_number := ""
    seller := {}
    buyer := {}
    items := [{ item_description := "widget", quantity := 1, unit_price := 10,
                line_total := 10 }]
    summary := { subtotal := 101/10, total_amount_due := 101/10 } }

/-! ## Helper lemmas -/

/-- Membership in a conditional singleton with a different element. -/
lemma mem_ite_single_ne {c : Prop} [Decidable c] {a s : String} (h : a ≠ s) :
    (a ∈ if c then [s] else []) ↔ False := by
  split <;> simp [h]

/-- Membership in the negative branch of a conditional singleton. -/
lemma mem_ite_nil_single {c : Prop} [Decidable c] {a : String} :
    (a ∈ if c then [] else [a]) ↔ ¬c := by
  split <;> simp_all

/-- The totals-mismatch warning is in the validator's warnings exactly
when `_validate_totals` reported a mismatch (no other check emits this
string). -/
lemma totals_warning_mem (inv : ProcessedInvoice) (fault : Option String) :
    ("Invoice totals may not add up correctly" ∈ (validate inv fault).warnings
      ↔ validateTotals inv fault = false) := by
  simp only [validate, List.mem_append]
  rw [mem_ite_single_ne (by decide), mem_ite_single_ne (by decide),
    mem_ite_nil_single, mem_ite_single_ne (by decide),
    mem_ite_single_ne (by decide), mem_ite_single_ne (by decide),
    mem_ite_single_ne (by decide)]
  simp

/-- The per-line subtotal contribution equals the spec's formula
`quantity * unit_price * (1 - discount/100)` (discount read as 0 when
absent). -/
lemma lineTotalCalc_eq (it : InvoiceItem) :
    lineTotalCalc it =
      it.quantity * it.unit_price * (1 - (it.discount_percentage.getD 0) / 100) := by
  unfold lineTotalCalc
  cases h : it.discount_percentage with
  | none => simp
  | some d =>
    simp only [Option.getD_some]
    by_cases hd : d = 0
    · simp [hd]
    · rw [if_pos hd]
      ring

/-- The per-line tax contribution equals the spec's formula
`line_subtotal * tax_rate / 100` (rate read as 0 when absent). -/
lemma lineTaxCalc_eq (it : InvoiceItem) :
    lineTaxCalc it = lineTotalCalc it * (it.tax_rate.getD 0) / 100 := by
  unfold lineTaxCalc
  cases h : it.tax_rate with
  | none => simp
  | some t =>
    by_cases ht : t = 0
    · simp [ht]
    · simp [ht]

/-! ## Claim theorems -/

/-- Claim C2: for every `ProcessedInvoice` (and every totals-check fault
possibility), the `ValidationResult` returned by the validation engine has
`is_valid = true` exactly when the errors list it produced is empty;
warnings and suggestions play no role in the verdict. -/
theorem validate_is_valid_iff_errors_empty (inv : ProcessedInvoice)
    (fault : Option String) :
    (validate inv fault).is_valid = true ↔ (validate inv fault).errors = [] := by
  simp [validate, List.isEmpty_iff]

/-- Claim C3 (counterexample): the claim as stated is false: on a state
whose `validation_result` has a non-empty errors list but `is_valid = true`,
`check_validation_status` returns the persist-eligible
`"validation_passed"`, not the terminating `"validation_failed"`. -/
theorem check_validation_status_claim_cex :
    check_validation_status
      { image_path := "img.png",
        validation_result := some { is_valid := true, errors := ["E1"] } }
      = "validation_passed" ∧
    ¬ check_validation_status
      { image_path := "img.png",
        validation_result := some { is_valid := true, errors := ["E1"] } }
      = "validation_failed" := by
  constructor
  · rfl
  · decide

/-- Claim C3 (amended): for every state whose `validation_result`, when
present, is consistent in the sense the validation engine guarantees
(`is_valid` equals the emptiness of its errors list),
`check_validation_status` returns the terminating `"validation_failed"`
whenever `validation_result` is absent or its errors list is non-empty,
and a persist-eligible outcome (`"validation_passed"` or
`"validation_warning"`) whenever the errors list is empty, whatever
`is_valid` is. -/
theorem check_validation_status_cases (st : GraphState) :
    (st.validation_result = none →
      check_validation_status st = "validation_failed") ∧
    (∀ vr : ValidationResult, st.validation_result = some vr →
      vr.is_valid = vr.errors.isEmpty →
      ((vr.errors ≠ [] → check_validation_status st = "validation_failed") ∧
       (vr.errors = [] →
         check_validation_status st = "validation_passed" ∨
         check_validation_status st = "validation_warning"))) := by
  refine ⟨fun h => by simp [check_validation_status, h], ?_⟩
  intro vr hvr hcons
  constructor
  · intro hne
    have hval : vr.is_valid = false := by
      rw [hcons]
      simp [List.isEmpty_iff, hne]
    simp [check_validation_status, hvr, hval, hne]
  · intro he
    have hval : vr.is_valid = true := by
      rw [hcons]
      simp [he]
    left
    simp [check_validation_status, hvr, hval]

/-- Claim C3 (witness): the amended theorem at a concrete state carrying a
consistent, error-bearing validation result: the run terminates. -/
theorem check_validation_status_cases_w :
    check_validation_status
      { image_path := "img.png",
        validation_result := some { is_valid := false, errors := ["E1"] } }
      = "validation_failed" :=
  ((check_validation_status_cases _).2
      { is_valid := false, errors := ["E1"] } rfl (by decide)).1 (by decide)

/-- Claim C10: a fault raised inside the totals cross-check (abstracted
by the fault parameter `m`) is swallowed by `_validate_totals` and
surfaces only as the totals-mismatch warning: the errors list, the
verdict and the suggestions are exactly those of a fault-free validation,
and the validation stage still returns a `ValidationResult` (it never
re-raises and adds no `errors` entry for the fault). -/
theorem validate_totals_fault_contained (inv : ProcessedInvoice) (m : String) :
    (validate inv (some m)).errors = (validate inv none).errors ∧
    (validate inv (some m)).is_valid = (validate inv none).is_valid ∧
    (validate inv (some m)).suggestions = (validate inv none).suggestions ∧
    "Invoice totals may not add up correctly" ∈ (validate inv (some m)).warnings ∧
    (validate_invoice { image_path := "", processed_invoice := some inv }
        (some m)).validation_result = some (validate inv (some m)) ∧
    (validate_invoice { image_path := "", processed_invoice := some inv }
        (some m)).errors = [] := by
  refine ⟨rfl, rfl, rfl, ?_, rfl, rfl⟩
  rw [totals_warning_mem]
  rfl

/-- Claim C4 (counterexample): on an invoice whose recomputed subtotal
differs from the summary's by exactly 0.10 (and whose tax difference is
0), neither absolute difference exceeds 0.10, yet validation does produce
the totals-mismatch warning — the code warns at `diff ≥ 0.10`, not only
at `diff > 0.10`. -/
theorem totals_tolerance_claim_cex :
    |calcSubtotal boundaryInvoice - boundaryInvoice.summary.subtotal| ≤ 1/10 ∧
    |calcTax boundaryInvoice - boundaryInvoice.summary.total_tax| ≤ 1/10 ∧
    "Invoice totals may not add up correctly" ∈
      (validate boundaryInvoice none).warnings := by
  have h1 : calcSubtotal boundaryInvoice = 10 := by
    simp [calcSubtotal, boundaryInvoice, lineTotalCalc]
  have h2 : calcTax boundaryInvoice = 0 := by
    simp [calcTax, boundaryInvoice, lineTaxCalc]
  have hs : boundaryInvoice.summary.subtotal = 101/10 := rfl
  have ht : boundaryInvoice.summary.total_tax = 0 := rfl
  have habs : |(10 : ℚ) - 101/10| = 1/10 := by
    rw [show (10 : ℚ) - 101/10 = -(1/10) by norm_num, abs_neg,
      abs_of_nonneg (by norm_num)]
  refine ⟨?_, ?_, ?_⟩
  · rw [h1, hs, habs]
  · rw [h2, ht]
    norm_num
  · rw [totals_warning_mem]
    simp only [validateTotals, totalsWithinTolerance, h1, h2, hs, ht,
      decide_eq_false_iff_not, not_and_or, not_lt, habs]
    left
    exact le_refl _

/-- Claim C4 (amended): the totals cross-check recomputes the subtotal as
the exact-decimal sum of `quantity * unit_price * (1 - discount/100)` and
the tax as the sum of `line_subtotal * tax_rate / 100` over all items,
and it adds the totals-mismatch warning iff at least one absolute
difference from the summary value is at least (not strictly greater
than) 0.10 currency units. -/
theorem validate_totals_tolerance (inv : ProcessedInvoice) :
    calcSubtotal inv = (inv.items.map (fun it =>
      it.quantity * it.unit_price *
        (1 - (it.discount_percentage.getD 0) / 100))).sum ∧
    calcTax inv = (inv.items.map (fun it =>
      it.quantity * it.unit_price *
        (1 - (it.discount_percentage.getD 0) / 100) *
        (it.tax_rate.getD 0) / 100)).sum ∧
    ("Invoice totals may not add up correctly" ∈ (validate inv none).warnings ↔
      (1/10 ≤ |calcSubtotal inv - inv.summary.subtotal| ∨
       1/10 ≤ |calcTax inv - inv.summary.total_tax|)) := by
  refine ⟨?_, ?_, ?_⟩
  · simp only [calcSubtotal]
    rw [funext lineTotalCalc_eq]
  · simp only [calcTax]
    have hfun : lineTaxCalc = fun it : InvoiceItem =>
        it.quantity * it.unit_price *
          (1 - (it.discount_percentage.getD 0) / 100) *
          (it.tax_rate.getD 0) / 100 := by
      funext it
      rw [lineTaxCalc_eq, lineTotalCalc_eq]
    rw [hfun]
  · rw [totals_warning_mem]
    simp only [validateTotals, totalsWithinTolerance,
      decide_eq_false_iff_not, not_and_or, not_lt]

/-- Folding any sequence of partial updates never shortens `errors`. -/
lemma foldl_errors_len (us : List Update) :
    ∀ s : GraphState, s.errors.length ≤ (us.foldl applyUpdate s).errors.length := by
  induction us with
  | nil => intro s; exact le_refl _
  | cons u us ih =>
    intro s
    refine le_trans ?_ (ih (applyUpdate s u))
    simp [applyUpdate]

/-- Folding any sequence of partial updates never shortens
`processing_logs`. -/
lemma foldl_logs_len (us : List Update) :
    ∀ s : GraphState,
      s.processing_logs.length ≤ (us.foldl applyUpdate s).processing_logs.length := by
  induction us with
  | nil => intro s; exact le_refl _
  | cons u us ih =>
    intro s
    refine le_trans ?_ (ih (applyUpdate s u))
    simp [applyUpdate]

/-- Folding any sequence of partial updates never shortens
`query_results`. -/
lemma foldl_queries_len (us : List Update) :
    ∀ s : GraphState,
      s.query_results.length ≤ (us.foldl applyUpdate s).query_results.length := by
  induction us with
  | nil => intro s; exact le_refl _
  | cons u us ih =>
    intro s
    refine le_trans ?_ (ih (applyUpdate s u))
    simp [applyUpdate]

/-- Claim C7: the engine's merge concatenates each stage's `errors`,
`processing_logs` and `query_results` onto the existing contents (so no
entry is ever removed or replaced), and across any sequence of stage
executions the three list lengths are monotonically non-decreasing. -/
theorem state_lists_append_only (s : GraphState) (u : Update)
    (us : List Update) :
    (applyUpdate s u).errors = s.errors ++ u.errors ∧
    (applyUpdate s u).processing_logs = s.processing_logs ++ u.processing_logs ∧
    (applyUpdate s u).query_results = s.query_results ++ u.query_results ∧
    s.errors.length ≤ (us.foldl applyUpdate s).errors.length ∧
    s.processing_logs.length ≤ (us.foldl applyUpdate s).processing_logs.length ∧
    s.query_results.length ≤ (us.foldl applyUpdate s).query_results.length :=
  ⟨rfl, rfl, rfl, foldl_errors_len us s, foldl_logs_len us s,
   foldl_queries_len us s⟩

/-- Claim C5: when the OCR service call faults with any message, the OCR
stage's partial update sets `ocr_status = "failed"`, appends exactly the
error string `"OCR Error: <message>"` and one failure-tagged log entry,
and does not set `ocr_result`; `check_ocr_status` then routes to
termination, so the final state of the run still has `processed_invoice`,
`validation_result` and `invoice_id` unset. -/
theorem ocr_fault_terminates (ip : String) (uq : Option String)
    (tf : Option String) (dbo ago : Except String String) (m : String) :
    (perform_ocr (initState ip uq) (.error m)).ocr_status = some "failed" ∧
    (perform_ocr (initState ip uq) (.error m)).errors = ["OCR Error: " ++ m] ∧
    (perform_ocr (initState ip uq) (.error m)).processing_logs =
      [{ step := "OCR", status := "failed", error := some m }] ∧
    (perform_ocr (initState ip uq) (.error m)).ocr_result = none ∧
    check_ocr_status (applyUpdate (initState ip uq)
      (perform_ocr (initState ip uq) (.error m))) = "ocr_failed" ∧
    runWorkflow ip uq { svc := .error m, totalsFault := tf, dbo := dbo, ago := ago }
      = applyUpdate (initState ip uq) (perform_ocr (initState ip uq) (.error m)) ∧
    (runWorkflow ip uq
      { svc := .error m, totalsFault := tf, dbo := dbo, ago := ago }).processed_invoice = none ∧
    (runWorkflow ip uq
      { svc := .error m, totalsFault := tf, dbo := dbo, ago := ago }).validation_result = none ∧
    (runWorkflow ip uq
      { svc := .error m, totalsFault := tf, dbo := dbo, ago := ago }).invoice_id = none ∧
    (runWorkflow ip uq
      { svc := .error m, totalsFault := tf, dbo := dbo, ago := ago }).errors =
      ["OCR Error: " ++ m] :=
  ⟨rfl, rfl, rfl, rfl, rfl, rfl, rfl, rfl, rfl, rfl⟩

/-- Claim C1: scenario A is unreachable in the code. Whatever the OCR
service returns (including a well-formed extraction), whatever the other
collaborators would do, and whether or not a user query is supplied, the
run never reaches the persistence stage: the final state keeps
`db_status = "pending"` with `invoice_id` and `processed_invoice` unset.
Two slips cause this: `OCRResult.table_info` is declared `Dict[str, Any]`
while `perform_ocr` feeds it the extraction's `items` list, so OCR fails
on every well-formed extraction; and `process_invoice_data` constructs
`ProcessedInvoice` without the required `seller`, `buyer`, `items`,
`summary` fields, so the mapping stage faults even when OCR completes. -/
theorem run_never_reaches_save (ip : String) (uq : Option String)
    (ext : Externals) :
    (runWorkflow ip uq ext).db_status = some "pending" ∧
    (runWorkflow ip uq ext).invoice_id = none ∧
    (runWorkflow ip uq ext).processed_invoice = none := by
  obtain ⟨svc, tf, dbo, ago⟩ := ext
  cases svc with
  | error m => exact ⟨rfl, rfl, rfl⟩
  | ok d =>
    obtain ⟨info, items, summ, conf⟩ := d
    cases items with
    | asList n => exact ⟨rfl, rfl, rfl⟩
    | asDict td => exact ⟨rfl, rfl, rfl⟩

/-- Claim C8: in every single-pass traversal of the graph, no node name
repeats in the execution trace, and each of the six scalar state fields
is written (carried in a partial update) by at most one stage, so a
written scalar is never overwritten by a later stage. -/
theorem stages_write_scalars_once (ip : String) (uq : Option String)
    (ext : Externals) :
    ((runTrace ip uq ext).2.map Prod.fst).Nodup ∧
    ∀ f : ScalarField,
      (runTrace ip uq ext).2.countP (fun p => p.2.setsField f) ≤ 1 := by
  obtain ⟨svc, tf, dbo, ago⟩ := ext
  cases svc with
  | error m =>
    have htr : (runTrace ip uq
        { svc := .error m, totalsFault := tf, dbo := dbo, ago := ago }).2 =
        [("perform_ocr",
          { ocr_status := some "failed", errors := ["OCR Error: " ++ m],
            processing_logs := [{ step := "OCR", status := "failed",
                                  error := some m }] })] := rfl
    refine ⟨?_, fun f => ?_⟩
    · rw [htr]
      simp only [List.map_cons, List.map_nil]
      decide
    · rw [htr]
      cases f <;>
        simp [List.countP_cons, List.countP_nil, Update.setsField]
  | ok d =>
    obtain ⟨info, items, summ, conf⟩ := d
    cases items with
    | asList n =>
      have htr : (runTrace ip uq
          { svc := .ok { invoice_info := info, items := .asList n,
                         summary := summ, confidence_scores := conf },
            totalsFault := tf, dbo := dbo, ago := ago }).2 =
          [("perform_ocr",
            { ocr_status := some "failed",
              errors := ["OCR Error: 1 validation error for OCRResult: table_info value is not a valid dict"],
              processing_logs := [{ step := "OCR", status := "failed",
                                    error := some "1 validation error for OCRResult: table_info value is not a valid dict" }] })] := rfl
      refine ⟨?_, fun f => ?_⟩
      · rw [htr]
        simp only [List.map_cons, List.map_nil]
        decide
      · rw [htr]
        cases f <;>
          simp [List.countP_cons, List.countP_nil, Update.setsField]
    | asDict td =>
      have htr : (runTrace ip uq
          { svc := .ok { invoice_info := info, items := .asDict td,
                         summary := summ, confidence_scores := conf },
            totalsFault := tf, dbo := dbo, ago := ago }).2 =
          [("perform_ocr",
            { ocr_result := some { invoice_info := info, table_info := td,
                                   total_info := summ, confidence_scores := conf,
                                   raw_text := "" },
              ocr_status := some "completed",
              processing_logs := [{ step := "OCR", status := "success" }] }),
           ("process_invoice_data",
            { errors := ["Processing Error: field required"],
              processing_logs := [{ step := "PROCESS_DATA", status := "failed",
                                    error := some "field required" }] }),
           ("validate_invoice",
            { errors := ["Validation Error: \x27processed_invoice\x27"] })] := rfl
      refine ⟨?_, fun f => ?_⟩
      · rw [htr]
        simp only [List.map_cons, List.map_nil]
        decide
      · rw [htr]
        cases f <;>
          simp [List.countP_cons, List.countP_nil, Update.setsField]

/-- With no fault injected every sub-insert commits its rows in order. -/
lemma execSteps_none (rs : List (List InvoiceRow)) :
    ∀ k, execSteps none k rs = .ok rs.flatten := by
  induction rs with
  | nil => intro k; rfl
  | cons r rest ih =>
    intro k
    simp [execSteps, ih (k + 1), Except.map]

/-- Claim C6: if any of the eight persistence sub-inserts faults, the
transaction rolls back atomically — the visible database afterwards is
exactly the one from before the call, so no rows from any of the eight
inserts for the invoice are visible — and `save_to_database` converts the
raised message into `db_status = "failed"` plus a
`"Database Error: <message>"` errors entry, with `invoice_id` left unset;
on success all rows commit, the fresh id is returned, and the stage sets
`invoice_id` and `db_status = "saved"`. -/
theorem save_invoice_atomic (db : DB) (d : SaveData) (iid : String)
    (k : Nat) (m : String) (st : GraphState) :
    (∀ e, (save_invoice db d iid (some (k, m))).1 = .error e →
      ((save_invoice db d iid (some (k, m))).2 = db ∧
       (save_to_database st (.error e)).db_status = some "failed" ∧
       (save_to_database st (.error e)).errors = ["Database Error: " ++ e] ∧
       (save_to_database st (.error e)).invoice_id = none)) ∧
    ((save_invoice db d iid none).1 = .ok iid ∧
     (save_invoice db d iid none).2 = db ++ (stepRows d iid).flatten ∧
     (save_to_database st (.ok iid)).invoice_id = some iid ∧
     (save_to_database st (.ok iid)).db_status = some "saved") := by
  constructor
  · intro e he
    cases hx : execSteps (some (k, m)) 0 (stepRows d iid) with
    | ok rows => simp [save_invoice, hx] at he
    | error m2 => exact ⟨by simp [save_invoice, hx], rfl, rfl, rfl⟩
  · refine ⟨?_, ?_, rfl, rfl⟩
    · simp [save_invoice, execSteps_none]
    · simp [save_invoice, execSteps_none]

/-- Claim C6 (witness): with seller, buyer and payment info present and
two line items, a fault in the 5th of the eight sub-inserts
(`invoice_summary`) leaves an initially-empty database empty, and the
persistence stage reports `db_status = "failed"` with the database error
recorded and no `invoice_id`. -/
theorem save_invoice_atomic_w :
    (save_invoice [] ⟨true, true, true, 2⟩ "inv-1"
      (some (4, "duplicate key"))).2 = [] ∧
    (save_to_database { image_path := "img.png" }
      (.error "Failed to save invoice: duplicate key")).db_status = some "failed" ∧
    (save_to_database { image_path := "img.png" }
      (.error "Failed to save invoice: duplicate key")).invoice_id = none := by
  have h := (save_invoice_atomic [] ⟨true, true, true, 2⟩ "inv-1" 4
    "duplicate key" { image_path := "img.png" }).1
    "Failed to save invoice: duplicate key" rfl
  exact ⟨h.1, h.2.1, h.2.2.2⟩

/-- Claim C9: `check_query_needed` routes to the query stage exactly when
`user_query` is a non-empty string (else it terminates), and whenever it
so routes, `process_user_query` appends exactly one `QueryResult` for any
agent outcome; when the agent call faults, the single appended
`QueryResult` has `success = false` and `error_message` set, and a
`"Query Error: <message>"` errors entry is appended as well. -/
theorem query_stage_routing (st : GraphState) (m : String) :
    (check_query_needed st = "process_query" ↔
      ∃ q, st.user_query = some q ∧ q ≠ "") ∧
    ((¬ ∃ q, st.user_query = some q ∧ q ≠ "") →
      check_query_needed st = "skip_query") ∧
    (check_query_needed st = "process_query" →
      (∀ ago : Except String String,
        (process_user_query st ago).query_results.length = 1) ∧
      (∃ q, st.user_query = some q ∧
        (process_user_query st (.error m)).query_results =
          [{ query := q, result := none, execution_time := 0, success := false,
             error_message := some m }] ∧
        (process_user_query st (.error m)).errors = ["Query Error: " ++ m])) := by
  have hne : ("skip_query" : String) ≠ "process_query" := by decide
  cases hq : st.user_query with
  | none =>
    have hcq : check_query_needed st = "skip_query" := by
      simp [check_query_needed, hq]
    refine ⟨?_, fun _ => hcq, ?_⟩
    · rw [hcq]
      constructor
      · intro h
        exact absurd h hne
      · rintro ⟨q', hq', -⟩
        exact Option.noConfusion hq'
    · intro hc
      rw [hcq] at hc
      exact absurd hc hne
  | some q =>
    by_cases hq0 : q = ""
    · have hcq : check_query_needed st = "skip_query" := by
        simp [check_query_needed, hq, hq0]
      refine ⟨?_, fun _ => hcq, ?_⟩
      · rw [hcq]
        constructor
        · intro h
          exact absurd h hne
        · rintro ⟨q', hq', hne'⟩
          injection hq' with hqq
          subst hqq
          exact absurd hq0 hne'
      · intro hc
        rw [hcq] at hc
        exact absurd hc hne
    · refine ⟨?_, ?_, ?_⟩
      · have hcq : check_query_needed st = "process_query" := by
          simp [check_query_needed, hq, hq0]
        rw [hcq]
        exact ⟨fun _ => ⟨q, rfl, hq0⟩, fun _ => rfl⟩
      · intro hno
        exact absurd ⟨q, rfl, hq0⟩ hno
      · intro _
        refine ⟨fun ago => ?_, ⟨q, rfl, ?_, ?_⟩⟩
        · cases ago <;> simp [process_user_query, hq, hq0]
        · simp [process_user_query, hq, hq0]
        · simp [process_user_query, hq, hq0]

/-- Claim C9 (witness): a state carrying the non-empty query
`"list invoices"` routes to the query stage; on an agent fault exactly
one failed `QueryResult` and one `"Query Error: ..."` entry are
appended. -/
theorem query_stage_routing_w :
    (process_user_query { image_path := "img.png", user_query := some "list invoices" }
      (.error "agent down")).query_results.length = 1 ∧
    (process_user_query { image_path := "img.png", user_query := some "list invoices" }
      (.error "agent down")).errors = ["Query Error: agent down"] := by
  have h := (query_stage_routing
    { image_path := "img.png", user_query := some "list invoices" }
    "agent down").2.2 (by decide)
  refine ⟨h.1 (.error "agent down"), ?_⟩
  obtain ⟨q, hq, hr, he⟩ := h.2
  exact he

end ChatBot
